import Mathlib

/-!
Shallow embedding of the Esp32Basecamp core (Basecamp.cpp, WifiControl.cpp)
for verifying the natural-language specification.

Arduino `String` values are modelled as Lean `String` or `List Char`;
`unsigned int` counters are modelled as `Nat` with explicit reduction
modulo 2^32 where the source can overflow; side-effecting calls
(Preferences writes, SPIFFS.format, ESP.restart, WiFi API calls) are
modelled as explicit action traces or result records.  `ESP.restart()`
never returns, so an action trace ends at a restart action.
-/

namespace Esp32Basecamp

/-- ASCII lower-casing of a single character, as performed by the Arduino
core when comparing strings case-insensitively. -/
def asciiToLower (c : Char) : Char :=
  if 'A' ≤ c ∧ c ≤ 'Z' then Char.ofNat (c.toNat + 32) else c

/-- Arduino `String::equalsIgnoreCase`: the two strings are equal after
ASCII lower-casing every character. -/
def equalsIgnoreCase (a b : String) : Bool :=
  a.data.map asciiToLower == b.data.map asciiToLower

/-- 2^32, the modulus of the `unsigned int` boot counter. -/
def uint32Mod : Nat := 4294967296

/-- Observable side effects of `Basecamp::checkResetReason`
(Basecamp.cpp lines 328-384). -/
inductive Action where
  | prefsBegin
  | putCounter (v : Nat)
  | setWifiConfigured (v : String)
  | saveConfig
  | formatStorage
  | prefsEnd
  | restart
deriving DecidableEq, Repr

/-- Trace semantics of `Basecamp::checkResetReason`.

Inputs: the hardware reset reason (`rtc_get_reset_reason(0)`), the
persisted value stored under the `bootcounter` preferences key, and the
value of the `wifiConfigured` configuration key.  The `bootCounter++`
increment is on an `unsigned int`, hence the reduction modulo 2^32.
A trace stops at `Action.restart` because `ESP.restart()` does not
return; in particular the trailing `preferences.end()` of the source
only runs on the non-restarting paths. -/
def checkResetReason (reason : Int) (storedBootCounter : Nat)
    (wifiConfiguredValue : String) : List Action :=
  Action.prefsBegin ::
  (if reason = 1 ∨ reason = 16 then
    let bootCounter := (storedBootCounter + 1) % uint32Mod
    if bootCounter > 3 then
      [Action.setWifiConfigured "False", Action.saveConfig,
       Action.putCounter 0, Action.prefsEnd, Action.restart]
    else if bootCounter > 2 ∧ equalsIgnoreCase wifiConfiguredValue "false" = true then
      [Action.formatStorage, Action.putCounter 0, Action.prefsEnd, Action.restart]
    else
      [Action.putCounter bootCounter, Action.prefsEnd]
  else
    [Action.putCounter 0, Action.prefsEnd])

/-- An action that persists a value of the boot counter. -/
def isCounterWrite : Action → Bool
  | .putCounter _ => true
  | _ => false

/-- The restart action. -/
def isRestart : Action → Bool
  | .restart => true
  | _ => false

/-- The close-with-flush of the preferences store (`preferences.end`). -/
def isFlush : Action → Bool
  | .prefsEnd => true
  | _ => false

/-- An escalation action: wiping all persisted application storage
(`SPIFFS.format`) or resetting the network configuration
(`configuration.set(wifiConfigured, "False")`). -/
def isEscalation : Action → Bool
  | .formatStorage => true
  | .setWifiConfigured _ => true
  | _ => false

/-- Whether a trace restarts the device. -/
def didRestart (as : List Action) : Bool := as.any isRestart

/-- Whether a trace wipes all persisted application storage. -/
def didWipe (as : List Action) : Bool :=
  as.any fun a => match a with | .formatStorage => true | _ => false

/-- Whether a trace marks the network configuration as unconfigured. -/
def didUnconfigure (as : List Action) : Bool :=
  as.any fun a => match a with | .setWifiConfigured _ => true | _ => false

/-- The last value written to the persisted boot counter in a trace. -/
def persistedCounter (as : List Action) : Option Nat :=
  (as.filterMap fun a => match a with | .putCounter v => some v | _ => none).getLast?

/-- Number of escalation actions in a trace. -/
def escalationCount (as : List Action) : Nat := (as.filter isEscalation).length

/-- Every restart action in the trace is strictly preceded by a persisted
counter write and by a flush/close of the store. -/
def flushedBeforeRestart (as : List Action) : Bool :=
  (List.range as.length).all fun k =>
    !(isRestart (as.getD k Action.prefsBegin)) ||
      (((as.take k).any isCounterWrite) && ((as.take k).any isFlush))

end Esp32Basecamp

namespace Esp32Basecamp

/-- C1 (amended): for a suspicious reset cause (1 or 16) the behaviour of
checkResetReason splits on the incremented counter, computed modulo 2^32
since the counter is an unsigned 32-bit integer: with inc = (c+1) mod 2^32,
if inc is at most 2 or no escalation branch fires, the counter is persisted
as inc and no restart occurs; if inc = 3 and the store reports the network
not configured, storage is wiped, the counter is reset to 0, flushed, and a
restart issued; if inc > 3 the network configuration is marked unconfigured
and saved, the counter reset to 0, flushed, and a restart issued. -/
theorem checkResetReason_suspicious_cases
    (reason : Int) (c : Nat) (cfg : String)
    (hreason : reason = 1 ∨ reason = 16) :
    (((c + 1) % uint32Mod ≤ 2 ∨
        (¬ (c + 1) % uint32Mod > 3 ∧
         ¬ ((c + 1) % uint32Mod > 2 ∧ equalsIgnoreCase cfg "false" = true))) →
      checkResetReason reason c cfg =
        [Action.prefsBegin, Action.putCounter ((c + 1) % uint32Mod), Action.prefsEnd]) ∧
    ((c + 1) % uint32Mod = 3 → equalsIgnoreCase cfg "false" = true →
      checkResetReason reason c cfg =
        [Action.prefsBegin, Action.formatStorage, Action.putCounter 0,
         Action.prefsEnd, Action.restart]) ∧
    ((c + 1) % uint32Mod > 3 →
      checkResetReason reason c cfg =
        [Action.prefsBegin, Action.setWifiConfigured "False", Action.saveConfig,
         Action.putCounter 0, Action.prefsEnd, Action.restart]) := by
  unfold checkResetReason
  rw [if_pos hreason]
  refine ⟨?_, ?_, ?_⟩
  · intro h
    rcases h with h | ⟨h3, h2⟩
    · rw [if_neg (by omega), if_neg (by omega)]
    · rw [if_neg h3, if_neg h2]
  · intro h3 hcfg
    rw [if_neg (by omega), if_pos (by exact ⟨by omega, hcfg⟩)]
  · intro h4
    rw [if_pos h4]

/-- C1 witness: at reset reason 1, stored counter 3 and configuration value
"x", the incremented counter is 4 > 3 and the network-unconfigure escalation
trace results. -/
theorem checkResetReason_suspicious_cases_witness :
    checkResetReason 1 3 "x" =
      [Action.prefsBegin, Action.setWifiConfigured "False", Action.saveConfig,
       Action.putCounter 0, Action.prefsEnd, Action.restart] :=
  (checkResetReason_suspicious_cases 1 3 "x" (Or.inl rfl)).2.2 (by decide)

/-- C1 counterexample: the claim as stated fails when the stored counter is
the maximal unsigned 32-bit value 4294967295: mathematically c+1 = 2^32 > 3,
so the claim demands the unconfigure-and-restart escalation, but the source
increments an unsigned int, which wraps to 0, so the code persists 0 and
does not restart. -/
theorem checkResetReason_claim_counterexample :
    4294967295 + 1 > 3 ∧
    didRestart (checkResetReason 1 4294967295 "false") = false ∧
    didUnconfigure (checkResetReason 1 4294967295 "false") = false ∧
    persistedCounter (checkResetReason 1 4294967295 "false") = some 0 := by
  refine ⟨by omega, ?_, ?_, ?_⟩ <;> decide

/-- C2: for every non-suspicious reset cause (anything other than 1 and 16)
checkResetReason persists 0 to the boot counter regardless of its prior
value, performs no escalation action and does not restart. -/
theorem checkResetReason_nonsuspicious
    (reason : Int) (c : Nat) (cfg : String)
    (h1 : reason ≠ 1) (h16 : reason ≠ 16) :
    checkResetReason reason c cfg =
      [Action.prefsBegin, Action.putCounter 0, Action.prefsEnd] ∧
    persistedCounter (checkResetReason reason c cfg) = some 0 ∧
    escalationCount (checkResetReason reason c cfg) = 0 ∧
    didRestart (checkResetReason reason c cfg) = false := by
  have hcond : ¬ (reason = 1 ∨ reason = 16) := by
    rintro (h | h) <;> [exact h1 h; exact h16 h]
  unfold checkResetReason
  rw [if_neg hcond]
  refine ⟨rfl, ?_, ?_, ?_⟩ <;>
    simp [persistedCounter, escalationCount, didRestart, isEscalation, isRestart,
      checkResetReason, if_neg hcond]

/-- C2 witness: reset reason 12 (software restart) with stored counter 7. -/
theorem checkResetReason_nonsuspicious_witness :
    checkResetReason 12 7 "true" =
      [Action.prefsBegin, Action.putCounter 0, Action.prefsEnd] :=
  (checkResetReason_nonsuspicious 12 7 "true" (by decide) (by decide)).1

/-- Helper: the four possible trace shapes of checkResetReason. -/
theorem checkResetReason_shape (reason : Int) (c : Nat) (cfg : String) :
    checkResetReason reason c cfg =
      [Action.prefsBegin, Action.setWifiConfigured "False", Action.saveConfig,
       Action.putCounter 0, Action.prefsEnd, Action.restart] ∨
    checkResetReason reason c cfg =
      [Action.prefsBegin, Action.formatStorage, Action.putCounter 0,
       Action.prefsEnd, Action.restart] ∨
    checkResetReason reason c cfg =
      [Action.prefsBegin, Action.putCounter ((c + 1) % uint32Mod), Action.prefsEnd] ∨
    checkResetReason reason c cfg =
      [Action.prefsBegin, Action.putCounter 0, Action.prefsEnd] := by
  unfold checkResetReason
  by_cases h : reason = 1 ∨ reason = 16
  · rw [if_pos h]
    by_cases h4 : (c + 1) % uint32Mod > 3
    · rw [if_pos h4]; exact Or.inl rfl
    · rw [if_neg h4]
      by_cases h3 : (c + 1) % uint32Mod > 2 ∧ equalsIgnoreCase cfg "false" = true
      · rw [if_pos h3]; exact Or.inr (Or.inl rfl)
      · rw [if_neg h3]; exact Or.inr (Or.inr (Or.inl rfl))
  · rw [if_neg h]; exact Or.inr (Or.inr (Or.inr rfl))

/-- C9: in every single execution of checkResetReason at most one escalation
action is performed, the wipe branch and the unconfigure branch are mutually
exclusive within one boot, and on every restarting path a persisted counter
write and the store flush/close both occur strictly before the restart. -/
theorem checkResetReason_escalation_ordering (reason : Int) (c : Nat) (cfg : String) :
    escalationCount (checkResetReason reason c cfg) ≤ 1 ∧
    ¬ (didWipe (checkResetReason reason c cfg) = true ∧
       didUnconfigure (checkResetReason reason c cfg) = true) ∧
    flushedBeforeRestart (checkResetReason reason c cfg) = true := by
  rcases checkResetReason_shape reason c cfg with h | h | h | h <;> rw [h] <;>
    refine ⟨?_, ?_, ?_⟩ <;>
    simp [escalationCount, didWipe, didUnconfigure, flushedBeforeRestart,
      isEscalation, isRestart, isCounterWrite, isFlush, List.range_succ]

/-- C9 witness: concrete instance at reset reason 16, stored counter 40,
unconfigured store. -/
theorem checkResetReason_escalation_ordering_witness :
    escalationCount (checkResetReason 16 40 "false") ≤ 1 ∧
    ¬ (didWipe (checkResetReason 16 40 "false") = true ∧
       didUnconfigure (checkResetReason 16 40 "false") = true) ∧
    flushedBeforeRestart (checkResetReason 16 40 "false") = true :=
  checkResetReason_escalation_ordering 16 40 "false"

/-- The network events handled by `WifiControl::WiFiEvent`
(WifiControl.cpp lines 109-156, wireless build): station got an IP
address, station disconnected, or any other event (default branch). -/
inductive WifiEventKind where
  | staGotIP
  | staDisconnected
  | other
deriving DecidableEq, Repr

/-- Observable side effects of `WifiControl::WiFiEvent`. -/
inductive WifiAction where
  | putCounter (v : Nat)
  | reconnect
deriving DecidableEq, Repr

/-- Trace semantics of `WifiControl::WiFiEvent`.  The handler also opens
the preferences store and reads the boot counter for logging; the stored
counter is passed in to show the emitted actions do not depend on it. -/
def WiFiEvent (event : WifiEventKind) (storedBootCounter : Nat) : List WifiAction :=
  match event, storedBootCounter with
  | .staGotIP, _ => [WifiAction.putCounter 0]
  | .staDisconnected, _ => [WifiAction.reconnect]
  | .other, _ => []

/-- Effect of one emitted action on the persisted boot counter. -/
def applyWifiAction (counter : Nat) : WifiAction → Nat
  | .putCounter v => v
  | .reconnect => counter

/-- Persisted boot counter after one invocation of the event handler. -/
def applyWifiEvent (counter : Nat) (event : WifiEventKind) : Nat :=
  (WiFiEvent event counter).foldl applyWifiAction counter

/-- Persisted boot counter after a sequence of handler invocations. -/
def applyWifiEvents (counter : Nat) (events : List WifiEventKind) : Nat :=
  events.foldl applyWifiEvent counter

/-- C3: an address-acquired event always sets the persisted boot counter
to 0; after any non-empty sequence of such events the counter is 0, so
repeated events are idempotent and leave it at 0. -/
theorem gotIP_resets_bootCounter (counter : Nat) (events : List WifiEventKind)
    (hne : events ≠ [])
    (hall : ∀ e ∈ events, e = WifiEventKind.staGotIP) :
    applyWifiEvent counter WifiEventKind.staGotIP = 0 ∧
    applyWifiEvents counter events = 0 := by
  refine ⟨rfl, ?_⟩
  induction events generalizing counter with
  | nil => exact absurd rfl hne
  | cons e rest ih =>
    have he : e = WifiEventKind.staGotIP := hall e (by simp)
    subst he
    rcases Decidable.em (rest = []) with hr | hr
    · subst hr; rfl
    · have : applyWifiEvents counter (WifiEventKind.staGotIP :: rest) =
          applyWifiEvents 0 rest := rfl
      rw [this]
      exact ih 0 hr (fun e he => hall e (List.mem_cons_of_mem _ he))

/-- C3 witness: starting from counter 5, two consecutive address-acquired
events leave the counter at 0. -/
theorem gotIP_resets_bootCounter_witness :
    applyWifiEvents 5 [WifiEventKind.staGotIP, WifiEventKind.staGotIP] = 0 :=
  (gotIP_resets_bootCounter 5 [WifiEventKind.staGotIP, WifiEventKind.staGotIP]
    (by decide) (by decide)).2

/-- A handler action that persists a value of the boot counter. -/
def isWifiCounterWrite : WifiAction → Bool
  | .putCounter _ => true
  | _ => false

/-- C4: a station-disconnected event immediately emits exactly one
reconnect request, independent of the stored boot counter (hence no
backoff and no attempt cap), and performs no counter write, leaving the
persisted boot counter unchanged. -/
theorem disconnected_requests_reconnect (counter : Nat) :
    WiFiEvent WifiEventKind.staDisconnected counter = [WifiAction.reconnect] ∧
    applyWifiEvent counter WifiEventKind.staDisconnected = counter ∧
    (∀ a ∈ WiFiEvent WifiEventKind.staDisconnected counter,
      isWifiCounterWrite a = false) := by
  refine ⟨rfl, rfl, ?_⟩
  intro a ha
  simp [WiFiEvent] at ha
  subst ha
  rfl

/-- C4 witness: concrete instance at stored counter 9. -/
theorem disconnected_requests_reconnect_witness :
    WiFiEvent WifiEventKind.staDisconnected 9 = [WifiAction.reconnect] :=
  (disconnected_requests_reconnect 9).1

/-- Minimum access point secret length (`minApSecretLength` in
WifiControl.cpp, 8 is the minimum for the ESP32). -/
def minApSecretLength : Nat := 8

/-- The fixed alphabet of `WifiControl::generateRandomSecret`; there is
no uppercase letter O to reduce confusion. -/
def validChars : List Char :=
  "abcdefghjkmnopqrstuvwxyzABCDEFGHJKMNPQRSTUVWXYZ23456789.-,:$/".data

/-- `WifiControl::generateRandomSecret` (WifiControl.cpp lines 205-221).
The stream of `esp_random()` values is passed in as a function from the
draw index to the raw random value; each character is the raw value
modulo the alphabet size, indexed into the alphabet.  The result is the
character sequence of the returned Arduino String. -/
def generateRandomSecret (randomValue : Nat → Nat) (len : Nat) : List Char :=
  let useLength := if len < minApSecretLength then minApSecretLength else len
  (List.range useLength).map fun i =>
    validChars.get ⟨randomValue i % validChars.length,
      Nat.mod_lt _ (by decide)⟩

/-- C5: for every random stream and every requested length, the generated
secret has length exactly max(len, 8), every character is drawn from the
fixed alphabet, and the uppercase letter O never occurs in it. -/
theorem generateRandomSecret_spec (randomValue : Nat → Nat) (len : Nat) :
    (generateRandomSecret randomValue len).length = max len minApSecretLength ∧
    (∀ ch ∈ generateRandomSecret randomValue len, ch ∈ validChars) ∧
    'O' ∉ generateRandomSecret randomValue len := by
  have hmem : ∀ ch ∈ generateRandomSecret randomValue len, ch ∈ validChars := by
    intro ch hch
    simp only [generateRandomSecret, List.mem_map, List.mem_range] at hch
    obtain ⟨i, _, rfl⟩ := hch
    exact List.get_mem _ _ _
  refine ⟨?_, hmem, ?_⟩
  · simp only [generateRandomSecret, List.length_map, List.length_range,
      minApSecretLength]
    split <;> omega
  · intro hO
    have : 'O' ∈ validChars := hmem 'O' hO
    revert this
    decide

/-- C5 witness: the all-zero random stream at requested length 3 yields an
8-character secret made of alphabet characters without the letter O. -/
theorem generateRandomSecret_spec_witness :
    (generateRandomSecret (fun _ => 0) 3).length = max 3 minApSecretLength ∧
    'O' ∉ generateRandomSecret (fun _ => 0) 3 :=
  ⟨(generateRandomSecret_spec (fun _ => 0) 3).1,
   (generateRandomSecret_spec (fun _ => 0) 3).2.2⟩

/-- One lowercase hexadecimal digit, as emitted by `std::hex` on an
`std::ostream` for a nibble value. -/
def hexDigitChar (n : Nat) : Char :=
  if n < 10 then Char.ofNat (48 + n) else Char.ofNat (87 + n)

/-- One byte rendered by `stream << setfill(0) << setw(2) << hex`:
exactly two lowercase hexadecimal digits, zero-padded, for every value
below 256. -/
def hexByte (b : Fin 256) : List Char :=
  [hexDigitChar (b.val / 16), hexDigitChar (b.val % 16)]

/-- The anonymous-namespace helper `format6Bytes` (WifiControl.cpp lines
158-173): loops i = 0..5, inserting the delimiter before every group but
the first when the delimiter is non-empty, then the two-digit lowercase
hex rendering of byte i.  The byte array is modelled as a function from
the index to the byte; only indices 0..5 are ever read. -/
def format6Bytes (bytes : Nat → Fin 256) (delimiter : List Char) : List Char :=
  (List.range 6).foldl
    (fun stream i =>
      stream ++ (if i ≠ 0 ∧ 0 < delimiter.length then delimiter else []) ++
        hexByte (bytes i))
    []

/-- The concrete byte array {0xAB, 0x01, 0x2C, 0x00, 0xFF, 0x10} of the
specification's round-trip example. -/
def exampleBytes : Nat → Fin 256 := fun i =>
  [(0xAB : Fin 256), 0x01, 0x2C, 0x00, 0xFF, 0x10].getD i 0

set_option maxRecDepth 4096 in
/-- C6: format6Bytes renders the six bytes as two-digit lowercase
hexadecimal groups joined by the delimiter (an empty delimiter yields no
separator, which coincides with joining by the empty string); every group
is two characters from the lowercase hex alphabet; the output depends
only on the six input bytes; and on the example bytes with delimiter ":"
the output is exactly "ab:01:2c:00:ff:10". -/
theorem format6Bytes_spec (bytes : Nat → Fin 256) (delimiter : List Char) :
    format6Bytes bytes delimiter =
      hexByte (bytes 0) ++ delimiter ++ hexByte (bytes 1) ++ delimiter ++
      hexByte (bytes 2) ++ delimiter ++ hexByte (bytes 3) ++ delimiter ++
      hexByte (bytes 4) ++ delimiter ++ hexByte (bytes 5) ∧
    (∀ b : Fin 256, (hexByte b).length = 2 ∧
      ∀ ch ∈ hexByte b, ch ∈ "0123456789abcdef".data) ∧
    (∀ bytes2 : Nat → Fin 256, (∀ i < 6, bytes i = bytes2 i) →
      format6Bytes bytes delimiter = format6Bytes bytes2 delimiter) ∧
    format6Bytes exampleBytes ":".data = "ab:01:2c:00:ff:10".data := by
  have hexp : ∀ bs : Nat → Fin 256, format6Bytes bs delimiter =
      hexByte (bs 0) ++ delimiter ++ hexByte (bs 1) ++ delimiter ++
      hexByte (bs 2) ++ delimiter ++ hexByte (bs 3) ++ delimiter ++
      hexByte (bs 4) ++ delimiter ++ hexByte (bs 5) := by
    intro bs
    rcases Nat.eq_zero_or_pos delimiter.length with hd | hd
    · have : delimiter = [] := List.eq_nil_of_length_eq_zero hd
      subst this
      simp [List.range_succ, format6Bytes]
    · simp [List.range_succ, format6Bytes, hd, List.append_assoc]
  refine ⟨hexp bytes, by decide, ?_, by decide⟩
  intro bytes2 hb
  rw [hexp bytes, hexp bytes2, hb 0 (by omega), hb 1 (by omega),
    hb 2 (by omega), hb 3 (by omega), hb 4 (by omega), hb 5 (by omega)]

/-- C6 witness: concrete instantiation at the example bytes and the colon
delimiter. -/
theorem format6Bytes_spec_witness :
    format6Bytes exampleBytes ":".data = "ab:01:2c:00:ff:10".data :=
  (format6Bytes_spec exampleBytes ":".data).2.2.2

/-- The operation mode of WifiControl (`WifiControl::Mode`). -/
inductive Mode where
  | uninitialized
  | client
  | accessPoint
deriving DecidableEq, Repr

/-- The observable outcome of `WifiControl::begin` (WifiControl.cpp
lines 20-69, wireless build): the selected operation mode, the access
point name member after the call, the station connection attempt
(`WiFi.begin(essid, password)`), the advertised hostname
(`WiFi.setHostname`), whether `WiFi.mode(WIFI_AP_STA)` was issued, and
the soft access point start (`WiFi.softAP`) with its optional password. -/
structure WifiBeginResult where
  operationMode : Mode
  wifiAPName : String
  staBegin : Option (String × String)
  hostnameSet : Option String
  wifiModeApSta : Bool
  softAP : Option (String × Option String)
deriving DecidableEq, Repr

/-- `WifiControl::begin` (wireless build).  `hardwareMac` stands for the
value of `getHardwareMacAddress()` and `prevAPName` for the `_wifiAPName`
member before the call. -/
def wifiControlBegin (hardwareMac prevAPName : String)
    (essid password configured hostname apSecret : String) : WifiBeginResult :=
  let apName := if prevAPName.length = 0 then "ESP32_" ++ hardwareMac else prevAPName
  if equalsIgnoreCase configured "true" = true then
    { operationMode := Mode.client
      wifiAPName := apName
      staBegin := some (essid, password)
      hostnameSet := some hostname
      wifiModeApSta := false
      softAP := none }
  else
    { operationMode := Mode.accessPoint
      wifiAPName := apName
      staBegin := none
      hostnameSet := none
      wifiModeApSta := true
      softAP := some (apName, if apSecret.length > 0 then some apSecret else none) }

/-- C7: WifiControl::begin selects Client mode, together with a station
connection attempt to the given essid and password and the advertised
hostname, exactly when the configured flag case-insensitively equals
"true"; for every other flag value, the empty string included, it selects
AccessPoint mode. -/
theorem wifiControlBegin_mode_selection
    (hardwareMac prevAPName essid password configured hostname apSecret : String) :
    (equalsIgnoreCase configured "true" = true →
      (wifiControlBegin hardwareMac prevAPName essid password configured
        hostname apSecret).operationMode = Mode.client ∧
      (wifiControlBegin hardwareMac prevAPName essid password configured
        hostname apSecret).staBegin = some (essid, password) ∧
      (wifiControlBegin hardwareMac prevAPName essid password configured
        hostname apSecret).hostnameSet = some hostname) ∧
    (equalsIgnoreCase configured "true" = false →
      (wifiControlBegin hardwareMac prevAPName essid password configured
        hostname apSecret).operationMode = Mode.accessPoint) := by
  constructor
  · intro h
    simp [wifiControlBegin, h]
  · intro h
    simp [wifiControlBegin, h]

/-- C7 witness: the flag value "TrUe" yields Client mode and the flag
value "" yields AccessPoint mode, at concrete arguments. -/
theorem wifiControlBegin_mode_selection_witness :
    (wifiControlBegin "aa" "" "net" "pw" "TrUe" "host" "sec").operationMode =
      Mode.client ∧
    (wifiControlBegin "aa" "" "net" "pw" "" "host" "sec").operationMode =
      Mode.accessPoint :=
  ⟨((wifiControlBegin_mode_selection "aa" "" "net" "pw" "TrUe" "host" "sec").1
      (by decide)).1,
   (wifiControlBegin_mode_selection "aa" "" "net" "pw" "" "host" "sec").2
      (by decide)⟩

/-- C8: whenever WifiControl::begin enters AccessPoint mode, the WiFi
stack is put into combined access-point-plus-station mode, and the soft
access point is started with the ap secret as password when the secret is
non-empty and open (without password) when it is empty. -/
theorem wifiControlBegin_accessPoint_spec
    (hardwareMac prevAPName essid password configured hostname apSecret : String)
    (h : equalsIgnoreCase configured "true" = false) :
    (wifiControlBegin hardwareMac prevAPName essid password configured
      hostname apSecret).wifiModeApSta = true ∧
    (0 < apSecret.length →
      (wifiControlBegin hardwareMac prevAPName essid password configured
        hostname apSecret).softAP =
        some ((wifiControlBegin hardwareMac prevAPName essid password configured
          hostname apSecret).wifiAPName, some apSecret)) ∧
    (apSecret.length = 0 →
      (wifiControlBegin hardwareMac prevAPName essid password configured
        hostname apSecret).softAP =
        some ((wifiControlBegin hardwareMac prevAPName essid password configured
          hostname apSecret).wifiAPName, none)) := by
  refine ⟨?_, ?_, ?_⟩
  · simp [wifiControlBegin, h]
  · intro hs
    simp [wifiControlBegin, h, hs]
  · intro hs
    simp [wifiControlBegin, h, hs]

/-- C8 witness: with an unconfigured flag, a non-empty secret starts a
protected access point and an empty secret an open one, at concrete
arguments. -/
theorem wifiControlBegin_accessPoint_spec_witness :
    (wifiControlBegin "aa" "myAP" "net" "pw" "false" "host" "s3cr3txx").wifiModeApSta
      = true ∧
    (wifiControlBegin "aa" "myAP" "net" "pw" "false" "host" "s3cr3txx").softAP =
      some ("myAP", some "s3cr3txx") ∧
    (wifiControlBegin "aa" "myAP" "net" "pw" "false" "host" "").softAP =
      some ("myAP", none) :=
  ⟨(wifiControlBegin_accessPoint_spec "aa" "myAP" "net" "pw" "false" "host"
      "s3cr3txx" (by decide)).1,
   (wifiControlBegin_accessPoint_spec "aa" "myAP" "net" "pw" "false" "host"
      "s3cr3txx" (by decide)).2.1 (by decide),
   (wifiControlBegin_accessPoint_spec "aa" "myAP" "net" "pw" "false" "host"
      "" (by decide)).2.2 (by decide)⟩

/-- `Basecamp::SetupModeWifiEncryption`. -/
inductive SetupModeWifiEncryption where
  | none
  | secured
deriving DecidableEq, Repr

/-- Outcome of the fixed-password validation at the top of
`Basecamp::begin` (Basecamp.cpp lines 77-86): the setup mode encryption
setting after the check and whether the too-short error was logged. -/
structure ApPasswordCheck where
  setupModeWifiEncryption : SetupModeWifiEncryption
  loggedError : Bool
deriving DecidableEq, Repr

/-- The password validation of `Basecamp::begin`: a non-empty password of
at least the minimum secret length (8) switches the encryption setting to
secured; a non-empty shorter one only logs an error and keeps the
setting; an empty one is ignored. -/
def checkFixedApEncryptionPassword (password : String)
    (enc : SetupModeWifiEncryption) : ApPasswordCheck :=
  if password.length ≠ 0 then
    if password.length ≥ minApSecretLength then
      { setupModeWifiEncryption := SetupModeWifiEncryption.secured
        loggedError := false }
    else
      { setupModeWifiEncryption := enc, loggedError := true }
  else
    { setupModeWifiEncryption := enc, loggedError := false }

/-- Return-value semantics of `Basecamp::begin` (Basecamp.cpp lines
77-289): after the password validation, every remaining step of the
function either returns nothing or has its result ignored, and control
falls through to the single unconditional `return true` at the end (a
restart issued inside checkResetReason does not return at all), so the
returned Bool is the constant true paired with the validation outcome. -/
def basecampBegin (password : String) (enc : SetupModeWifiEncryption) :
    ApPasswordCheck × Bool :=
  (checkFixedApEncryptionPassword password enc, true)

/-- C10: Basecamp::begin returns true for every fixed access point
password argument and every prior encryption setting — failure is never
signalled through the return value; a non-empty password shorter than the
minimum secret length 8 only logs an error and leaves the setup mode
encryption setting unchanged, and an empty password changes nothing. -/
theorem basecampBegin_returns_true (password : String)
    (enc : SetupModeWifiEncryption) :
    (basecampBegin password enc).2 = true ∧
    (password.length ≠ 0 → password.length < minApSecretLength →
      (basecampBegin password enc).1.setupModeWifiEncryption = enc ∧
      (basecampBegin password enc).1.loggedError = true) ∧
    (password.length = 0 →
      (basecampBegin password enc).1 =
        { setupModeWifiEncryption := enc, loggedError := false }) := by
  refine ⟨rfl, ?_, ?_⟩
  · intro hne hshort
    constructor <;>
      simp [basecampBegin, checkFixedApEncryptionPassword, hne,
        Nat.not_le.mpr hshort]
  · intro hz
    simp [basecampBegin, checkFixedApEncryptionPassword, hz]

/-- C10 witness: the 5-character password "abcde" is non-empty and
shorter than 8, yet begin returns true, logs the error and keeps the
encryption setting. -/
theorem basecampBegin_returns_true_witness :
    (basecampBegin "abcde" SetupModeWifiEncryption.none).2 = true ∧
    (basecampBegin "abcde" SetupModeWifiEncryption.none).1.setupModeWifiEncryption
      = SetupModeWifiEncryption.none ∧
    (basecampBegin "abcde" SetupModeWifiEncryption.none).1.loggedError = true :=
  ⟨(basecampBegin_returns_true "abcde" SetupModeWifiEncryption.none).1,
   ((basecampBegin_returns_true "abcde" SetupModeWifiEncryption.none).2.1
      (by decide) (by decide)).1,
   ((basecampBegin_returns_true "abcde" SetupModeWifiEncryption.none).2.1
      (by decide) (by decide)).2⟩

end Esp32Basecamp
